import Mathlib

/-!
Shallow embedding of `supabase/functions/provision-business/index.ts`:
a Deno edge function that provisions a new tenant by chaining GitHub
(repository from template, business-config update), Supabase (project
creation, secret writes) and Vercel (project creation, deployment trigger)
REST calls.

External HTTP calls are modelled by oracles: a `FetchResult β` is either a
thrown JavaScript exception (a rejected `fetch` or a throwing `.json()`)
or a settled response with an `ok` flag and a parsed JSON body of shape
`β`.  Every call the code issues is recorded in an observation list of
`Call`s, so that "no external call is attempted" and "stage X is invoked"
are statable.  JSON objects are modelled as association lists of
`String × JsonVal`; the base64 transport encoding of the GitHub contents
API (`atob` / `btoa` plus `JSON.parse` / `JSON.stringify`) is abstracted
away: a fetched file carries its decoded, parsed object directly.
-/

/-- A JSON value, used for the business-config document. -/
inductive JsonVal where
  | str (s : String)
  | num (n : Int)
  | bool (b : Bool)
  | null
  | obj (fields : List (String × JsonVal))
  | arr (elems : List JsonVal)

/-- A JavaScript exception: `some m` is an `Error` with message `m`,
`none` is a thrown non-`Error` value. -/
def JsError := Option String

/-- Outcome of one `await fetch(...)` (with its subsequent `.json()`):
either an exception propagates, or a settled response with its `ok` flag
and parsed body. -/
inductive FetchResult (β : Type) where
  | thrown (e : JsError)
  | resp (ok : Bool) (body : β)

/-- JavaScript `x || d` for an optional string `x` (both `undefined` and
the empty string are falsy). -/
def jsOr (x : Option String) (d : String) : String :=
  match x with
  | some s => if s = "" then d else s
  | none => d

/-- JavaScript `err instanceof Error ? err.message : fallback`. -/
def errMsg (fallback : String) (e : JsError) : String :=
  match e with
  | some m => m
  | none => fallback

/-- JavaScript truthiness of an optional string. -/
def truthy (x : Option String) : Bool :=
  match x with
  | some s => s ≠ ""
  | none => false

/-- JavaScript falsiness (`!x`) of an optional string. -/
def falsy (x : Option String) : Bool := !(truthy x)

/-- One external HTTP call issued by the function, with the payload
fields the specification talks about. -/
inductive Call where
  | githubGenerate (templateOwner templateRepo newRepoName : String)
  | configGet (owner repo : String)
  | configPut (owner repo sha : String) (content : List (String × JsonVal))
  | supabaseCreate (organizationId projectName : String)
  | supabaseKeys (projectId : String)
  | secretPost (projectId name value : String)
  | vercelProject (teamId projectName : String) (envVars : List (String × String))
  | vercelDeploy (teamId projectName : String)

/-! ## Step 1: `createGitHubRepo` -/

/-- Parsed JSON body of the GitHub "generate from template" response:
`message` is read on the error path, `html_url` on the success path. -/
structure GitHubGenBody where
  message : Option String
  html_url : String

structure GitHubResult where
  success : Bool
  repoUrl : Option String := none
  error : Option String := none

/-- `createGitHubRepo` from the source: one POST to the generate
endpoint; a non-ok response returns `errorData.message || 'Failed to
create repo'`; an exception is caught and converted to a failure
result. -/
def createGitHubRepo (fetchGen : FetchResult GitHubGenBody)
    (templateOwner templateRepo newRepoName : String) :
    GitHubResult × List Call :=
  let call := Call.githubGenerate templateOwner templateRepo newRepoName
  match fetchGen with
  | .thrown e =>
      ({ success := false, error := some (errMsg "GitHub API error" e) }, [call])
  | .resp ok body =>
      if !ok then
        ({ success := false,
           error := some (jsOr body.message "Failed to create repo") }, [call])
      else
        ({ success := true, repoUrl := some body.html_url }, [call])

/-! ## Step 2: `createSupabaseProject` -/

/-- Parsed JSON body of the Supabase "create project" response. -/
structure SupaCreateBody where
  message : Option String
  id : String

/-- One entry of the Supabase "list API keys" response. -/
structure ApiKey where
  name : String
  api_key : Option String

structure SupaResult where
  success : Bool
  projectId : Option String := none
  projectUrl : Option String := none
  anonKey : Option String := none
  error : Option String := none

/-- `createSupabaseProject` from the source: POST the create-project
request, on success sleep 30s (not observable here) and GET the API
keys; `anonKey` is the `api_key` of the entry named `anon` when the keys
response is ok, else the empty string.  Any exception (including one
raised during the keys fetch) is caught and converted to a failure
result. -/
def createSupabaseProject (fetchCreate : FetchResult SupaCreateBody)
    (fetchKeys : FetchResult (List ApiKey))
    (organizationId projectName : String) :
    SupaResult × List Call :=
  let createCall := Call.supabaseCreate organizationId projectName
  match fetchCreate with
  | .thrown e =>
      ({ success := false, error := some (errMsg "Supabase API error" e) }, [createCall])
  | .resp ok body =>
      if !ok then
        ({ success := false,
           error := some (jsOr body.message "Failed to create Supabase project") },
         [createCall])
      else
        let keysCall := Call.supabaseKeys body.id
        match fetchKeys with
        | .thrown e =>
            ({ success := false, error := some (errMsg "Supabase API error" e) },
             [createCall, keysCall])
        | .resp kok keys =>
            let anonKey :=
              if kok then
                match keys.find? (fun k => k.name == "anon") with
                | some kd => jsOr kd.api_key ""
                | none => ""
              else ""
            ({ success := true,
               projectId := some body.id,
               projectUrl := some ("https://" ++ body.id ++ ".supabase.co"),
               anonKey := some anonKey },
             [createCall, keysCall])

/-! ## Step 3: `createVercelDeployment` -/

/-- Parsed JSON body of the Vercel "create project" response:
`error_message` models the `errorData.error?.message` chain (`none`
when either level is missing). -/
structure VercelProjBody where
  error_message : Option String
  id : String

/-- Parsed JSON body of the Vercel "create deployment" response. -/
structure VercelDeployBody where
  url : Option String

structure VercelResult where
  success : Bool
  projectId : Option String := none
  deploymentUrl : Option String := none
  error : Option String := none

/-- `createVercelDeployment` from the source: POST the create-project
request (terminal failure on non-ok or exception), then POST the
deployment trigger; the deployment URL defaults to
`https://<projectName>.vercel.app` and is replaced by
`https://<deployData.url>` only when the trigger response is ok and its
`url` field is truthy.  An exception anywhere (including in the trigger
call) is caught and converted to a failure result. -/
def createVercelDeployment (fetchProject : FetchResult VercelProjBody)
    (fetchDeploy : FetchResult VercelDeployBody)
    (teamId projectName : String) (envVars : List (String × String)) :
    VercelResult × List Call :=
  let projCall := Call.vercelProject teamId projectName envVars
  match fetchProject with
  | .thrown e =>
      ({ success := false, error := some (errMsg "Vercel API error" e) }, [projCall])
  | .resp ok body =>
      if !ok then
        ({ success := false,
           error := some (jsOr body.error_message "Failed to create Vercel project") },
         [projCall])
      else
        let depCall := Call.vercelDeploy teamId projectName
        match fetchDeploy with
        | .thrown e =>
            ({ success := false, error := some (errMsg "Vercel API error" e) },
             [projCall, depCall])
        | .resp dok dbody =>
            let deploymentUrl :=
              if dok then
                match dbody.url with
                | some u =>
                    if u = "" then "https://" ++ projectName ++ ".vercel.app"
                    else "https://" ++ u
                | none => "https://" ++ projectName ++ ".vercel.app"
              else "https://" ++ projectName ++ ".vercel.app"
            ({ success := true,
               projectId := some body.id,
               deploymentUrl := some deploymentUrl },
             [projCall, depCall])

/-! ## Step 4: `updateBusinessConfig` -/

/-- The GitHub contents-API file data the code consumes:
`content_decoded` is the JSON object obtained from the base64 `content`
field after newline stripping, `atob` and `JSON.parse` (the transport
decoding itself is abstracted); `sha` is the file's revision marker. -/
structure FileData where
  content_decoded : List (String × JsonVal)
  sha : String

/-- JavaScript object-spread merge `{...cur, ...cfg}`: the keys of `cur`
in order, each overwritten by the value of its first occurrence in `cfg`
when present, followed by the entries of `cfg` whose keys do not occur in
`cur`. -/
def spreadMerge (cur cfg : List (String × JsonVal)) :
    List (String × JsonVal) :=
  (cur.map (fun p =>
      match cfg.find? (fun q => q.1 == p.1) with
      | some q => (p.1, q.2)
      | none => p))
  ++ cfg.filter (fun q => !(cur.any (fun p => p.1 == q.1)))

/-- First-occurrence key lookup in a JSON object (JavaScript property
access on a `JSON.parse` result, which keeps last-wins semantics for
duplicate source keys; lists produced by parsing have distinct keys, for
which first- and last-occurrence lookup agree). -/
def jlookup (k : String) (l : List (String × JsonVal)) : Option JsonVal :=
  (l.find? (fun p => p.1 == k)).map (fun p => p.2)

/-- `updateBusinessConfig` from the source: skipped when no config is
supplied; otherwise GET the existing `business.json` (false on non-ok),
spread-merge the caller config over it, and PUT the merged document back
with the fetched file's `sha`; exceptions are caught and converted to
`false`. -/
def updateBusinessConfig (fetchGet : FetchResult FileData)
    (fetchPut : FetchResult Unit) (owner repo : String)
    (config : Option (List (String × JsonVal))) : Bool × List Call :=
  match config with
  | none => (true, [])
  | some cfg =>
      let getCall := Call.configGet owner repo
      match fetchGet with
      | .thrown _ => (false, [getCall])
      | .resp ok fileData =>
          if !ok then (false, [getCall])
          else
            let updatedContent := spreadMerge fileData.content_decoded cfg
            let putCall := Call.configPut owner repo fileData.sha updatedContent
            match fetchPut with
            | .thrown _ => (false, [getCall, putCall])
            | .resp pok _ => (pok, [getCall, putCall])

/-! ## Step 5: `setSupabaseSecrets` -/

/-- The loop body of `setSupabaseSecrets`: one POST per secret, in
order, indexing the per-call oracle by position.  The response of each
call is never inspected (neither `.ok` nor the body), so a failure
response does not stop the loop; a thrown exception propagates to the
surrounding catch, which returns `false` — the remaining secrets are
not attempted. -/
def setSupabaseSecretsGo (projectId : String)
    (outcomes : Nat → FetchResult Unit) (i : Nat)
    (secrets : List (String × String)) : Bool × List Call :=
  match secrets with
  | [] => (true, [])
  | (name, value) :: rest =>
      let call := Call.secretPost projectId name value
      match outcomes i with
      | .thrown _ => (false, [call])
      | .resp _ _ =>
          let r := setSupabaseSecretsGo projectId outcomes (i + 1) rest
          (r.1, call :: r.2)

/-- `setSupabaseSecrets` from the source. -/
def setSupabaseSecrets (outcomes : Nat → FetchResult Unit)
    (projectId : String) (secrets : List (String × String)) :
    Bool × List Call :=
  setSupabaseSecretsGo projectId outcomes 0 secrets

/-! ## The handler (`serve`) -/

/-- The request body the handler reads (`ProvisionRequest` in the
source); string fields are optional because JSON bodies may omit them,
and the handler tests them for truthiness. -/
structure ProvisionRequest where
  businessName : Option String := none
  businessSlug : Option String := none
  ownerEmail : Option String := none
  templateRepo : Option String := none
  businessConfig : Option (List (String × JsonVal)) := none

/-- The environment variables the handler reads via `Deno.env.get`. -/
structure Env where
  GITHUB_TOKEN : Option String := none
  SUPABASE_ACCESS_TOKEN : Option String := none
  SUPABASE_ORG_ID : Option String := none
  VERCEL_TOKEN : Option String := none
  VERCEL_TEAM_ID : Option String := none
  GEMINI_API_KEY : Option String := none

structure GithubInfo where
  repoUrl : String
  repoName : String

structure SupaInfo where
  projectId : String
  projectUrl : String
  anonKey : String

structure VercelInfo where
  projectId : String
  deploymentUrl : String

/-- `ProvisionResult` from the source. -/
structure ProvisionResult where
  success : Bool
  github : Option GithubInfo := none
  supabase : Option SupaInfo := none
  vercel : Option VercelInfo := none
  error : Option String := none

/-- The JSON body of the handler's HTTP response. -/
inductive RespBody where
  | empty
  | errBody (error : String)
  | okBody (result : ProvisionResult)

/-- The handler's HTTP response (status plus JSON body). -/
structure HttpOut where
  status : Nat
  body : RespBody

/-- Oracle bundling the outcomes of every external call one invocation
may issue; the per-index `secretOutcomes` drives the secrets loop. -/
structure World where
  githubGen : FetchResult GitHubGenBody
  configGet : FetchResult FileData
  configPut : FetchResult Unit
  supaCreate : FetchResult SupaCreateBody
  supaKeys : FetchResult (List ApiKey)
  secretOutcomes : Nat → FetchResult Unit
  vercelProj : FetchResult VercelProjBody
  vercelDeploy : FetchResult VercelDeployBody

/-- Step 2 of the orchestrator (`if (SUPABASE_ACCESS_TOKEN &&
SUPABASE_ORG_ID) { ... }`): create the Supabase project and, only on its
success, record the project info and propagate the secrets record
`{GITHUB_TOKEN, GITHUB_OWNER, GITHUB_REPO, GEMINI_API_KEY}` (the
propagation result is discarded). -/
def supabaseStage (env : Env) (w : World)
    (templateOwner newRepoName slug : String) :
    Option SupaInfo × List Call :=
  if truthy env.SUPABASE_ACCESS_TOKEN && truthy env.SUPABASE_ORG_ID then
    let sres := createSupabaseProject w.supaCreate w.supaKeys
      (env.SUPABASE_ORG_ID.getD "") slug
    if sres.1.success then
      let info : SupaInfo :=
        { projectId := sres.1.projectId.getD "undefined",
          projectUrl := sres.1.projectUrl.getD "undefined",
          anonKey := sres.1.anonKey.getD "undefined" }
      let secrets := [("GITHUB_TOKEN", env.GITHUB_TOKEN.getD ""),
                      ("GITHUB_OWNER", templateOwner),
                      ("GITHUB_REPO", newRepoName),
                      ("GEMINI_API_KEY", jsOr env.GEMINI_API_KEY "")]
      let sec := setSupabaseSecrets w.secretOutcomes
        (sres.1.projectId.getD "undefined") secrets
      (some info, sres.2 ++ sec.2)
    else (none, sres.2)
  else (none, [])

/-- Step 3 of the orchestrator (`if (VERCEL_TOKEN && VERCEL_TEAM_ID &&
result.github) { ... }`; `result.github` is always set at this point):
create the Vercel project/deployment with env vars drawn from the
(possibly absent) Supabase stage result, recording the info only on
success. -/
def vercelStage (env : Env) (w : World) (slug : String)
    (supabaseOpt : Option SupaInfo) : Option VercelInfo × List Call :=
  if truthy env.VERCEL_TOKEN && truthy env.VERCEL_TEAM_ID then
    let envVars :=
      [("VITE_SUPABASE_URL", (supabaseOpt.map (fun s => s.projectUrl)).getD ""),
       ("VITE_SUPABASE_ANON_KEY", (supabaseOpt.map (fun s => s.anonKey)).getD "")]
    let vres := createVercelDeployment w.vercelProj w.vercelDeploy
      (env.VERCEL_TEAM_ID.getD "") slug envVars
    if vres.1.success then
      (some { projectId := vres.1.projectId.getD "undefined",
              deploymentUrl := vres.1.deploymentUrl.getD "undefined" },
       vres.2)
    else (none, vres.2)
  else (none, [])

/-- The `serve` handler from the source.  `reqBody` is the outcome of
`await req.json()` (an exception lands in the top-level catch, which
responds 500 with the error's message).  A `Response` constructed
without an explicit status has status 200. -/
def serve (env : Env) (w : World) (method : String)
    (reqBody : Except JsError ProvisionRequest) : HttpOut × List Call :=
  if method = "OPTIONS" then ({ status := 200, body := .empty }, [])
  else
    match reqBody with
    | .error e =>
        ({ status := 500,
           body := .errBody (errMsg "Failed to provision business" e) }, [])
    | .ok request =>
        if falsy request.businessName || falsy request.businessSlug
            || falsy request.ownerEmail then
          ({ status := 400,
             body := .errBody "businessName, businessSlug, and ownerEmail are required" },
           [])
        else if falsy env.GITHUB_TOKEN || falsy env.SUPABASE_ACCESS_TOKEN
            || falsy env.VERCEL_TOKEN then
          ({ status := 500,
             body := .errBody "Missing required API tokens (GITHUB_TOKEN, SUPABASE_ACCESS_TOKEN, VERCEL_TOKEN)" },
           [])
        else
          let templateOwner := "FastFix-SF"
          let templateRepo := jsOr request.templateRepo "premier-remediation-2-app"
          let newRepoName := request.businessSlug.getD "" ++ "-app"
          let gres := createGitHubRepo w.githubGen templateOwner templateRepo newRepoName
          if !gres.1.success then
            ({ status := 500,
               body := .errBody ("GitHub: " ++ gres.1.error.getD "undefined") },
             gres.2)
          else
            let github : GithubInfo :=
              { repoUrl := gres.1.repoUrl.getD "undefined",
                repoName := newRepoName }
            let cfgCalls :=
              match request.businessConfig with
              | some _ =>
                  (updateBusinessConfig w.configGet w.configPut templateOwner
                    newRepoName request.businessConfig).2
              | none => []
            let sStage := supabaseStage env w templateOwner newRepoName
              (request.businessSlug.getD "")
            let vStage := vercelStage env w (request.businessSlug.getD "") sStage.1
            ({ status := 200,
               body := .okBody
                 { success := true,
                   github := some github,
                   supabase := sStage.1,
                   vercel := vStage.1 } },
             gres.2 ++ cfgCalls ++ sStage.2 ++ vStage.2)

/-! ## Demonstration inputs (used to instantiate theorems) -/

/-- A successful GitHub generate-from-template response body. -/
def ghOkBody : GitHubGenBody :=
  { message := none,
    html_url := "https://github.com/FastFix-SF/acme-plumbing-app" }

/-- An existing `business.json` as fetched from the new repository. -/
def fdDemo : FileData :=
  { content_decoded := [("name", .str "Premier Remediation"),
                        ("phone", .str "415-555-0000")],
    sha := "abc123" }

/-- A caller-supplied business-config payload. -/
def cfgDemo : List (String × JsonVal) :=
  [("name", .str "Acme Plumbing"), ("tagline", .str "Fast fixes")]

/-- A world in which every external call succeeds. -/
def wDemo : World :=
  { githubGen := .resp true ghOkBody,
    configGet := .resp true fdDemo,
    configPut := .resp true (),
    supaCreate := .resp true { message := none, id := "proj0" },
    supaKeys := .resp true [{ name := "anon", api_key := some "anonkey0" }],
    secretOutcomes := fun _ => .resp true (),
    vercelProj := .resp true { error_message := none, id := "vprj0" },
    vercelDeploy := .resp true { url := some "acme-plumbing-xyz.vercel.app" } }

/-- A world in which the Supabase create-project call returns a failure
response and everything else succeeds. -/
def wSupaFail : World :=
  { wDemo with supaCreate := .resp false { message := some "quota exceeded", id := "" } }

/-- An environment carrying every token the handler reads. -/
def envDemo : Env :=
  { GITHUB_TOKEN := some "ghp-token",
    SUPABASE_ACCESS_TOKEN := some "sbp-token",
    SUPABASE_ORG_ID := some "org-1",
    VERCEL_TOKEN := some "vc-token",
    VERCEL_TEAM_ID := some "team-1",
    GEMINI_API_KEY := some "gm-key" }

/-- A well-formed provisioning request. -/
def reqDemo : ProvisionRequest :=
  { businessName := some "Acme Plumbing",
    businessSlug := some "acme-plumbing",
    ownerEmail := some "owner@acme.com" }

/-- The environment `envDemo` with the mandatory GitHub token removed. -/
def envNoGit : Env := { envDemo with GITHUB_TOKEN := none }

/-- The request `reqDemo` with `businessName` missing. -/
def reqNoName : ProvisionRequest := { reqDemo with businessName := none }

/-- A world in which the GitHub generate call returns a non-2xx response
whose body carries the provider's error message. -/
def wGitFail : World :=
  { wDemo with
    githubGen := .resp false
      { message := some "Repository creation failed: name already exists",
        html_url := "" } }

/-- The `success` flag carried by a JSON result body (`none` when the
body is not a result object). -/
def bodySuccess : RespBody → Option Bool
  | .okBody r => some r.success
  | _ => none

/-- The `supabase` field carried by a JSON result body (`none` when the
body is not a result object). -/
def bodySupabase : RespBody → Option (Option SupaInfo)
  | .okBody r => some r.supabase
  | _ => none

/-! ## Theorems -/

/-- Claim C10: the stage helpers `createGitHubRepo`, `createSupabaseProject`
and `createVercelDeployment` never let an exception escape: an exception
raised by any of their external calls (the GitHub generate call, the
Supabase create or keys call, the Vercel project or deployment call) is
caught and converted into a returned value with `success := false` and the
exception's message (or the helper's fixed fallback text for a non-`Error`
throw) as `error`. -/
theorem claimC10_helpers_catch_all (e : JsError) (o r n : String)
    (fk : FetchResult (List ApiKey)) (fd : FetchResult VercelDeployBody)
    (ev : List (String × String)) (sb : SupaCreateBody) (pb : VercelProjBody) :
    (createGitHubRepo (.thrown e) o r n).1
        = { success := false, error := some (errMsg "GitHub API error" e) }
    ∧ (createSupabaseProject (.thrown e) fk o n).1
        = { success := false, error := some (errMsg "Supabase API error" e) }
    ∧ (createSupabaseProject (.resp true sb) (.thrown e) o n).1
        = { success := false, error := some (errMsg "Supabase API error" e) }
    ∧ (createVercelDeployment (.thrown e) fd o n ev).1
        = { success := false, error := some (errMsg "Vercel API error" e) }
    ∧ (createVercelDeployment (.resp true pb) (.thrown e) o n ev).1
        = { success := false, error := some (errMsg "Vercel API error" e) } :=
  ⟨rfl, rfl, rfl, rfl, rfl⟩

/-- Claim C5 counterexample: with the secret map `{A: 1, B: 2}` and the
write call for `A` failing by throwing (a rejected `fetch`), the
try/catch that wraps the whole loop aborts it: the call for `B` is never
issued, contrary to the claim that a failure of one write does not
prevent the subsequent ones. -/
theorem claimC5_counterexample :
    (setSupabaseSecrets (fun i => if i = 0 then .thrown none else .resp true ())
        "proj0" [("A", "1"), ("B", "2")]).2
      = [Call.secretPost "proj0" "A" "1"]
    ∧ Call.secretPost "proj0" "B" "2"
        ∉ (setSupabaseSecrets (fun i => if i = 0 then .thrown none else .resp true ())
            "proj0" [("A", "1"), ("B", "2")]).2 := by
  refine ⟨rfl, ?_⟩
  intro hmem
  rw [show (setSupabaseSecrets (fun i => if i = 0 then .thrown none else .resp true ())
      "proj0" [("A", "1"), ("B", "2")]).2 = [Call.secretPost "proj0" "A" "1"] from rfl] at hmem
  simp at hmem

/-- One write call is issued per remaining secret, in order, whenever
every outcome from the current index on settles (is not thrown). -/
theorem setSupabaseSecretsGo_calls (projectId : String)
    (outcomes : Nat → FetchResult Unit)
    (secrets : List (String × String)) :
    ∀ i, (∀ j, ∃ ok, outcomes j = .resp ok ()) →
      (setSupabaseSecretsGo projectId outcomes i secrets).2
        = secrets.map (fun p => Call.secretPost projectId p.1 p.2) := by
  induction secrets with
  | nil => intro i _; rfl
  | cons a rest ih =>
    intro i h
    obtain ⟨n, v⟩ := a
    obtain ⟨ok, ho⟩ := h i
    unfold setSupabaseSecretsGo
    rw [ho]
    simp [ih (i + 1) h]

/-- Claim C5 (amended): for every secret map, when every write call
settles (returns a response of any status, rather than throwing), exactly
one write call is issued per entry, in the map's given order; since the
responses are never inspected, a failure response of one secret's write
does not prevent the subsequent writes.  (A write call that throws — a
rejected `fetch` — aborts the loop instead, see the counterexample.) -/
theorem claimC5_secrets_in_order (outcomes : Nat → FetchResult Unit)
    (projectId : String) (secrets : List (String × String))
    (h : ∀ j, ∃ ok, outcomes j = .resp ok ()) :
    (setSupabaseSecrets outcomes projectId secrets).2
      = secrets.map (fun p => Call.secretPost projectId p.1 p.2) :=
  setSupabaseSecretsGo_calls projectId outcomes secrets 0 h

/-- Claim C5 witness: with map `{A: 1, B: 2}` and every call settling with
a failure response, both writes are issued, in order. -/
theorem claimC5_witness :
    (setSupabaseSecrets (fun _ => .resp false ()) "proj0" [("A", "1"), ("B", "2")]).2
      = [Call.secretPost "proj0" "A" "1", Call.secretPost "proj0" "B" "2"] :=
  claimC5_secrets_in_order (fun _ => .resp false ()) "proj0" [("A", "1"), ("B", "2")]
    (fun _ => ⟨false, rfl⟩)

/-- Claim C8 counterexample: project creation succeeds but the
deployment-trigger `fetch` throws; the stage-wide catch converts this to
a stage failure, contradicting the claim that the stage always returns
success once project creation succeeds. -/
theorem claimC8_counterexample :
    (createVercelDeployment (.resp true { error_message := none, id := "vprj0" })
        (.thrown (some "network error")) "team-1" "acme-plumbing" []).1.success
      = false := rfl

/-- Claim C8 (amended): when the project-creation call returns ok and the
deployment-trigger call settles (does not throw), the stage returns
success with the provider's project id, and the deployment URL is
`https://` followed by the provider-returned `url` when the trigger
response is ok with a nonempty `url` field, and the deterministic guess
`https://<projectName>.vercel.app` otherwise; in particular a failure
response of the trigger call alone does not make the stage fail.  (A
trigger call that throws fails the whole stage instead, see the
counterexample.) -/
theorem claimC8_vercel_best_effort_url (pb : VercelProjBody) (dok : Bool)
    (db : VercelDeployBody) (t n : String) (ev : List (String × String)) :
    (createVercelDeployment (.resp true pb) (.resp dok db) t n ev).1.success = true
    ∧ (createVercelDeployment (.resp true pb) (.resp dok db) t n ev).1.projectId
        = some pb.id
    ∧ (∀ u, dok = true → db.url = some u → u ≠ "" →
        (createVercelDeployment (.resp true pb) (.resp dok db) t n ev).1.deploymentUrl
          = some ("https://" ++ u))
    ∧ ((dok = false ∨ db.url = none ∨ db.url = some "") →
        (createVercelDeployment (.resp true pb) (.resp dok db) t n ev).1.deploymentUrl
          = some ("https://" ++ n ++ ".vercel.app")) := by
  refine ⟨rfl, rfl, ?_, ?_⟩
  · intro u hdok hurl hne
    subst hdok
    simp [createVercelDeployment, hurl, hne]
  · intro h
    rcases h with h | h | h
    · subst h
      simp [createVercelDeployment]
    · cases dok <;> simp [createVercelDeployment, h]
    · cases dok <;> simp [createVercelDeployment, h]

/-- Claim C8 witness: a provider-returned URL is used when the trigger
call succeeds with one; a trigger failure response still yields success
with the guessed URL. -/
theorem claimC8_witness :
    (createVercelDeployment (.resp true { error_message := none, id := "vprj0" })
        (.resp true { url := some "acme-xyz.vercel.app" })
        "team-1" "acme-plumbing" []).1.deploymentUrl
      = some ("https://" ++ "acme-xyz.vercel.app")
    ∧ (createVercelDeployment (.resp true { error_message := none, id := "vprj0" })
        (.resp false { url := none }) "team-1" "acme-plumbing" []).1.deploymentUrl
      = some ("https://" ++ "acme-plumbing" ++ ".vercel.app")
    ∧ (createVercelDeployment (.resp true { error_message := none, id := "vprj0" })
        (.resp false { url := none }) "team-1" "acme-plumbing" []).1.success
      = true := by
  refine ⟨?_, ?_, ?_⟩
  · exact (claimC8_vercel_best_effort_url _ true _ "team-1" "acme-plumbing" []).2.2.1
      "acme-xyz.vercel.app" rfl rfl (by decide)
  · exact (claimC8_vercel_best_effort_url _ false _ "team-1" "acme-plumbing" []).2.2.2
      (Or.inl rfl)
  · exact (claimC8_vercel_best_effort_url _ false _ "team-1" "acme-plumbing" []).1

/-- The overwrite the object spread applies to each existing entry keeps
that entry's key. -/
theorem spreadMerge_comp_key (cfg : List (String × JsonVal)) (k : String) :
    ((fun p : String × JsonVal => p.1 == k) ∘ fun p =>
        match cfg.find? fun q => q.1 == p.1 with
        | some q => (p.1, q.2)
        | none => p)
      = fun p : String × JsonVal => p.1 == k := by
  funext p
  simp only [Function.comp_apply]
  cases cfg.find? fun q => q.1 == p.1 <;> rfl

/-- Filtering by a predicate that holds on every entry whose key is `k`
does not change a first-occurrence search for key `k`. -/
theorem find?_filter_keeps_key (cfg : List (String × JsonVal))
    (g : String × JsonVal → Bool) (k : String)
    (hg : ∀ a : String × JsonVal, a.1 = k → g a = true) :
    (cfg.filter g).find? (fun p => p.1 == k)
      = cfg.find? (fun p => p.1 == k) := by
  induction cfg with
  | nil => rfl
  | cons a l ih =>
    by_cases ha : a.1 = k
    · rw [List.filter_cons_of_pos (hg a ha),
        List.find?_cons_of_pos _ (by simp [ha]),
        List.find?_cons_of_pos _ (by simp [ha])]
    · by_cases hga : g a = true
      · rw [List.filter_cons_of_pos hga,
          List.find?_cons_of_neg _ (by simp [ha]),
          List.find?_cons_of_neg _ (by simp [ha])]
        exact ih
      · rw [List.filter_cons_of_neg hga,
          List.find?_cons_of_neg _ (by simp [ha])]
        exact ih

/-- Key lookup in the object-spread merge: a key supplied by `cfg` gets
`cfg`'s (first) value, any other key keeps its value from `cur`. -/
theorem jlookup_spreadMerge (cur cfg : List (String × JsonVal)) (k : String) :
    jlookup k (spreadMerge cur cfg) = (jlookup k cfg).or (jlookup k cur) := by
  simp only [jlookup, spreadMerge]
  rw [List.find?_append, List.find?_map, spreadMerge_comp_key]
  cases hcur : cur.find? fun p => p.1 == k with
  | some p0 =>
    have hk : p0.1 = k := by
      have h := List.find?_some hcur
      simpa using h
    simp only [Option.map_some', Option.or_some]
    rw [hk]
    cases hcfg : cfg.find? fun p => p.1 == k with
    | some q => simp [hcfg]
    | none => simp [hcfg]
  | none =>
    simp only [Option.map_none', Option.none_or]
    rw [find?_filter_keeps_key cfg _ k]
    · cases hcfg : cfg.find? fun p => p.1 == k with
      | some q => simp
      | none => simp
    · intro a hak
      have hnone := List.find?_eq_none.mp hcur
      have hany : (cur.any fun p => p.1 == a.1) = false := by
        rw [hak]
        exact List.any_eq_false.mpr hnone
      simp [hany]

/-- Claim C7: `updateBusinessConfig` fetches the existing config file,
issues exactly one write carrying the fetched file's `sha` and the
shallow merge of the caller config over the existing object, where every
caller-supplied key takes the caller's value (whole-value replacement,
no deep merge) and every other key keeps its existing value. -/
theorem claimC7_config_merge_and_sha (fp : FetchResult Unit) (fd : FileData)
    (cfg : List (String × JsonVal)) (owner repo : String) (k : String) :
    (updateBusinessConfig (.resp true fd) fp owner repo (some cfg)).2
      = [Call.configGet owner repo,
         Call.configPut owner repo fd.sha (spreadMerge fd.content_decoded cfg)]
    ∧ (∀ v, jlookup k cfg = some v →
        jlookup k (spreadMerge fd.content_decoded cfg) = some v)
    ∧ (jlookup k cfg = none →
        jlookup k (spreadMerge fd.content_decoded cfg)
          = jlookup k fd.content_decoded) := by
  refine ⟨?_, ?_, ?_⟩
  · cases fp <;> rfl
  · intro v hv
    rw [jlookup_spreadMerge, hv]
    rfl
  · intro h
    rw [jlookup_spreadMerge, h]
    rfl

/-- Claim C7 witness: with an existing config carrying `name` and
`phone` and a caller config carrying `name` and `tagline`, the write
call carries the fetched `sha`; the merged document takes `name` from
the caller and keeps `phone` from the existing file. -/
theorem claimC7_witness :
    (updateBusinessConfig (.resp true fdDemo) (.resp true ()) "FastFix-SF"
        "acme-plumbing-app" (some cfgDemo)).2
      = [Call.configGet "FastFix-SF" "acme-plumbing-app",
         Call.configPut "FastFix-SF" "acme-plumbing-app" "abc123"
           (spreadMerge fdDemo.content_decoded cfgDemo)]
    ∧ jlookup "name" (spreadMerge fdDemo.content_decoded cfgDemo)
        = some (.str "Acme Plumbing")
    ∧ jlookup "phone" (spreadMerge fdDemo.content_decoded cfgDemo)
        = some (.str "415-555-0000") := by
  refine ⟨?_, ?_, ?_⟩
  · exact (claimC7_config_merge_and_sha (.resp true ()) fdDemo cfgDemo
      "FastFix-SF" "acme-plumbing-app" "name").1
  · exact (claimC7_config_merge_and_sha (.resp true ()) fdDemo cfgDemo
      "FastFix-SF" "acme-plumbing-app" "name").2.1 (.str "Acme Plumbing") rfl
  · exact ((claimC7_config_merge_and_sha (.resp true ()) fdDemo cfgDemo
      "FastFix-SF" "acme-plumbing-app" "phone").2.2 rfl).trans rfl

/-- Claim C9: a request body that is not valid JSON makes `req.json()`
throw; the exception lands in the top-level catch, which responds HTTP
500 (not 400) carrying the parse error's message, and no external call
is issued. -/
theorem claimC9_invalid_json_is_500 (env : Env) (w : World) (method : String)
    (m : String) (hm : method ≠ "OPTIONS") :
    (serve env w method (.error (some m))).1
        = { status := 500, body := .errBody m }
    ∧ (serve env w method (.error (some m))).2 = [] := by
  unfold serve
  rw [if_neg hm]
  exact ⟨rfl, rfl⟩

/-- Claim C9 witness: a concrete parse failure yields a 500 response
carrying the message and an empty call log. -/
theorem claimC9_witness :
    (serve envDemo wDemo "POST" (.error (some "Unexpected token i in JSON"))).1
        = { status := 500, body := .errBody "Unexpected token i in JSON" }
    ∧ (serve envDemo wDemo "POST" (.error (some "Unexpected token i in JSON"))).2 = [] :=
  claimC9_invalid_json_is_500 envDemo wDemo "POST" "Unexpected token i in JSON" (by decide)

/-- Claim C4: a parsed request body in which `businessName`,
`businessSlug` or `ownerEmail` is absent or empty (JavaScript-falsy) is
answered with HTTP 400 and no external call, whatever the environment
and the external world. -/
theorem claimC4_missing_fields_400 (env : Env) (w : World) (method : String)
    (r : ProvisionRequest) (hm : method ≠ "OPTIONS")
    (h : falsy r.businessName = true ∨ falsy r.businessSlug = true
         ∨ falsy r.ownerEmail = true) :
    (serve env w method (.ok r)).1.status = 400
    ∧ (serve env w method (.ok r)).2 = [] := by
  unfold serve
  rw [if_neg hm]
  have hcond : (falsy r.businessName || falsy r.businessSlug
      || falsy r.ownerEmail) = true := by
    rcases h with h | h | h <;> simp [h]
  simp only [hcond]
  exact ⟨rfl, rfl⟩

/-- Claim C4 witness: a request missing `businessName` is answered 400
with no calls, even with all tokens configured. -/
theorem claimC4_witness :
    (serve envDemo wDemo "POST" (.ok reqNoName)).1.status = 400
    ∧ (serve envDemo wDemo "POST" (.ok reqNoName)).2 = [] :=
  claimC4_missing_fields_400 envDemo wDemo "POST" reqNoName (by decide)
    (Or.inl (by decide))

/-- Claim C3 counterexample: a request whose body is missing
`businessName`, evaluated in an environment missing `GITHUB_TOKEN`, is
answered with HTTP 400 — not 500 — because the field validation runs
before the token check. -/
theorem claimC3_counterexample :
    (serve envNoGit wDemo "POST" (.ok reqNoName)).1.status = 400
    ∧ (serve envNoGit wDemo "POST" (.ok reqNoName)).1.status ≠ 500 :=
  ⟨rfl, by decide⟩

/-- Claim C3 (amended): for every non-preflight request whose body
parses and passes the field validation (nonempty `businessName`,
`businessSlug`, `ownerEmail`), if any of the three mandatory tokens
(`GITHUB_TOKEN`, `SUPABASE_ACCESS_TOKEN`, `VERCEL_TOKEN`) is absent or
empty in the environment, the handler responds HTTP 500 and performs no
external call. -/
theorem claimC3_missing_tokens_500 (env : Env) (w : World) (method : String)
    (r : ProvisionRequest) (hm : method ≠ "OPTIONS")
    (h1 : truthy r.businessName = true) (h2 : truthy r.businessSlug = true)
    (h3 : truthy r.ownerEmail = true)
    (h : falsy env.GITHUB_TOKEN = true ∨ falsy env.SUPABASE_ACCESS_TOKEN = true
         ∨ falsy env.VERCEL_TOKEN = true) :
    (serve env w method (.ok r)).1.status = 500
    ∧ (serve env w method (.ok r)).2 = [] := by
  unfold serve
  rw [if_neg hm]
  have hfields : (falsy r.businessName || falsy r.businessSlug
      || falsy r.ownerEmail) = false := by
    simp [falsy, h1, h2, h3]
  have htok : (falsy env.GITHUB_TOKEN || falsy env.SUPABASE_ACCESS_TOKEN
      || falsy env.VERCEL_TOKEN) = true := by
    rcases h with h | h | h <;> simp [h]
  simp only [hfields, htok]
  exact ⟨rfl, rfl⟩

/-- Claim C3 witness: a fully valid request in an environment missing
only `GITHUB_TOKEN` is answered 500 with no calls. -/
theorem claimC3_witness :
    (serve envNoGit wDemo "POST" (.ok reqDemo)).1.status = 500
    ∧ (serve envNoGit wDemo "POST" (.ok reqDemo)).2 = [] :=
  claimC3_missing_tokens_500 envNoGit wDemo "POST" reqDemo (by decide)
    (by decide) (by decide) (by decide) (Or.inl (by decide))

/-- Once field validation, the token check and the GitHub stage have
passed, `serve` always produces a 200 response whose result has
`success := true`, whatever the remaining stages do. -/
theorem serve_success_shape (env : Env) (w : World) (method : String)
    (r : ProvisionRequest) (b : GitHubGenBody) (hm : method ≠ "OPTIONS")
    (h1 : truthy r.businessName = true) (h2 : truthy r.businessSlug = true)
    (h3 : truthy r.ownerEmail = true)
    (ht1 : truthy env.GITHUB_TOKEN = true)
    (ht2 : truthy env.SUPABASE_ACCESS_TOKEN = true)
    (ht3 : truthy env.VERCEL_TOKEN = true)
    (hg : w.githubGen = .resp true b) :
    serve env w method (.ok r)
      = ({ status := 200,
           body := .okBody
             { success := true,
               github := some { repoUrl := b.html_url,
                                repoName := r.businessSlug.getD "" ++ "-app" },
               supabase := (supabaseStage env w "FastFix-SF"
                   (r.businessSlug.getD "" ++ "-app") (r.businessSlug.getD "")).1,
               vercel := (vercelStage env w (r.businessSlug.getD "")
                   (supabaseStage env w "FastFix-SF"
                     (r.businessSlug.getD "" ++ "-app") (r.businessSlug.getD "")).1).1 } },
         [Call.githubGenerate "FastFix-SF"
            (jsOr r.templateRepo "premier-remediation-2-app")
            (r.businessSlug.getD "" ++ "-app")]
           ++ (match r.businessConfig with
               | some _ => (updateBusinessConfig w.configGet w.configPut "FastFix-SF"
                   (r.businessSlug.getD "" ++ "-app") r.businessConfig).2
               | none => [])
           ++ (supabaseStage env w "FastFix-SF" (r.businessSlug.getD "" ++ "-app")
                 (r.businessSlug.getD "")).2
           ++ (vercelStage env w (r.businessSlug.getD "")
                 (supabaseStage env w "FastFix-SF" (r.businessSlug.getD "" ++ "-app")
                   (r.businessSlug.getD "")).1).2) := by
  unfold serve
  rw [if_neg hm]
  have hfields : (falsy r.businessName || falsy r.businessSlug
      || falsy r.ownerEmail) = false := by
    simp [falsy, h1, h2, h3]
  have htok : (falsy env.GITHUB_TOKEN || falsy env.SUPABASE_ACCESS_TOKEN
      || falsy env.VERCEL_TOKEN) = false := by
    simp [falsy, ht1, ht2, ht3]
  simp only [hfields, htok, hg]
  rfl

/-- Claim C1: once the repository-creation stage succeeds, the handler's
response has status 200 and a result body with `success := true`, for
every behaviour (skipped, succeeded or failed) of the config-write,
backend-provisioning, secret-propagation and deployment stages — they
are all absorbed into the oracle `w`, which is universally
quantified. -/
theorem claimC1_success_once_repo_created (env : Env) (w : World)
    (method : String) (r : ProvisionRequest) (b : GitHubGenBody)
    (hm : method ≠ "OPTIONS")
    (h1 : truthy r.businessName = true) (h2 : truthy r.businessSlug = true)
    (h3 : truthy r.ownerEmail = true)
    (ht1 : truthy env.GITHUB_TOKEN = true)
    (ht2 : truthy env.SUPABASE_ACCESS_TOKEN = true)
    (ht3 : truthy env.VERCEL_TOKEN = true)
    (hg : w.githubGen = .resp true b) :
    (serve env w method (.ok r)).1.status = 200
    ∧ bodySuccess (serve env w method (.ok r)).1.body = some true := by
  rw [serve_success_shape env w method r b hm h1 h2 h3 ht1 ht2 ht3 hg]
  exact ⟨rfl, rfl⟩

/-- Claim C1 witness: with every stage succeeding the response is 200
and successful (the hypotheses are discharged on concrete data). -/
theorem claimC1_witness :
    (serve envDemo wDemo "POST" (.ok reqDemo)).1.status = 200
    ∧ bodySuccess (serve envDemo wDemo "POST" (.ok reqDemo)).1.body = some true :=
  claimC1_success_once_repo_created envDemo wDemo "POST" reqDemo ghOkBody
    (by decide) (by decide) (by decide) (by decide) (by decide) (by decide)
    (by decide) rfl

/-- Claim C2: a non-2xx response to the repository-creation call makes
the handler answer HTTP 500 with an error body containing the provider's
error text, and the call log contains exactly the one GitHub generate
call — none of the config-write, backend-provisioning,
secret-propagation or deployment stages is invoked. -/
theorem claimC2_repo_failure_aborts (env : Env) (w : World) (method : String)
    (r : ProvisionRequest) (b : GitHubGenBody) (hm : method ≠ "OPTIONS")
    (h1 : truthy r.businessName = true) (h2 : truthy r.businessSlug = true)
    (h3 : truthy r.ownerEmail = true)
    (ht1 : truthy env.GITHUB_TOKEN = true)
    (ht2 : truthy env.SUPABASE_ACCESS_TOKEN = true)
    (ht3 : truthy env.VERCEL_TOKEN = true)
    (hg : w.githubGen = .resp false b) :
    (serve env w method (.ok r)).1.status = 500
    ∧ (∀ s, b.message = some s → ∃ pre post,
        (serve env w method (.ok r)).1.body = .errBody (pre ++ s ++ post))
    ∧ (serve env w method (.ok r)).2
        = [Call.githubGenerate "FastFix-SF"
            (jsOr r.templateRepo "premier-remediation-2-app")
            (r.businessSlug.getD "" ++ "-app")] := by
  have hserve : serve env w method (.ok r)
      = ({ status := 500,
           body := .errBody ("GitHub: " ++ jsOr b.message "Failed to create repo") },
         [Call.githubGenerate "FastFix-SF"
            (jsOr r.templateRepo "premier-remediation-2-app")
            (r.businessSlug.getD "" ++ "-app")]) := by
    unfold serve
    rw [if_neg hm]
    have hfields : (falsy r.businessName || falsy r.businessSlug
        || falsy r.ownerEmail) = false := by
      simp [falsy, h1, h2, h3]
    have htok : (falsy env.GITHUB_TOKEN || falsy env.SUPABASE_ACCESS_TOKEN
        || falsy env.VERCEL_TOKEN) = false := by
      simp [falsy, ht1, ht2, ht3]
    simp only [hfields, htok, hg]
    rfl
  refine ⟨by rw [hserve], ?_, by rw [hserve]⟩
  intro s hs
  by_cases hse : s = ""
  · subst hse
    refine ⟨"GitHub: ", "Failed to create repo", ?_⟩
    rw [hserve, hs]
    simp [jsOr]
  · refine ⟨"GitHub: ", "", ?_⟩
    rw [hserve, hs]
    simp [jsOr, hse]

/-- Claim C2 witness: with the generate call answering non-2xx with a
concrete provider message, the response is 500, the body contains that
message, and only the one GitHub call was issued. -/
theorem claimC2_witness :
    (serve envDemo wGitFail "POST" (.ok reqDemo)).1.status = 500
    ∧ (∃ pre post, (serve envDemo wGitFail "POST" (.ok reqDemo)).1.body
        = .errBody (pre ++ "Repository creation failed: name already exists" ++ post))
    ∧ (serve envDemo wGitFail "POST" (.ok reqDemo)).2
        = [Call.githubGenerate "FastFix-SF" "premier-remediation-2-app"
            ("acme-plumbing" ++ "-app")] := by
  refine ⟨?_, ?_, ?_⟩
  · exact (claimC2_repo_failure_aborts envDemo wGitFail "POST" reqDemo _ (by decide)
      (by decide) (by decide) (by decide) (by decide) (by decide) (by decide) rfl).1
  · exact (claimC2_repo_failure_aborts envDemo wGitFail "POST" reqDemo _ (by decide)
      (by decide) (by decide) (by decide) (by decide) (by decide) (by decide) rfl).2.1
      "Repository creation failed: name already exists" rfl
  · exact (claimC2_repo_failure_aborts envDemo wGitFail "POST" reqDemo _ (by decide)
      (by decide) (by decide) (by decide) (by decide) (by decide) (by decide) rfl).2.2

/-- `createSupabaseProject` never issues a secret-write call. -/
theorem secretPost_not_mem_createSupabaseProject (fc : FetchResult SupaCreateBody)
    (fk : FetchResult (List ApiKey)) (o n p nm v : String) :
    Call.secretPost p nm v ∉ (createSupabaseProject fc fk o n).2 := by
  cases fc with
  | thrown e => simp [createSupabaseProject]
  | resp ok bd =>
    cases ok
    · simp [createSupabaseProject]
    · cases fk <;> simp [createSupabaseProject]

/-- `updateBusinessConfig` never issues a secret-write call. -/
theorem secretPost_not_mem_updateBusinessConfig (fg : FetchResult FileData)
    (fp : FetchResult Unit) (o rp : String)
    (c : Option (List (String × JsonVal))) (p nm v : String) :
    Call.secretPost p nm v ∉ (updateBusinessConfig fg fp o rp c).2 := by
  cases c
  · simp [updateBusinessConfig]
  · cases fg with
    | thrown e => simp [updateBusinessConfig]
    | resp ok fd =>
      cases ok
      · simp [updateBusinessConfig]
      · cases fp <;> simp [updateBusinessConfig]

/-- `createVercelDeployment` never issues a secret-write call. -/
theorem secretPost_not_mem_createVercelDeployment (fp : FetchResult VercelProjBody)
    (fd : FetchResult VercelDeployBody) (t n : String)
    (ev : List (String × String)) (p nm v : String) :
    Call.secretPost p nm v ∉ (createVercelDeployment fp fd t n ev).2 := by
  cases fp with
  | thrown e => simp [createVercelDeployment]
  | resp ok bd =>
    cases ok
    · simp [createVercelDeployment]
    · cases fd <;> simp [createVercelDeployment]

/-- The Vercel stage never issues a secret-write call. -/
theorem secretPost_not_mem_vercelStage (env : Env) (w : World) (slug : String)
    (so : Option SupaInfo) (p nm v : String) :
    Call.secretPost p nm v ∉ (vercelStage env w slug so).2 := by
  unfold vercelStage
  by_cases hc : (truthy env.VERCEL_TOKEN && truthy env.VERCEL_TEAM_ID) = true
  · by_cases hs : (createVercelDeployment w.vercelProj w.vercelDeploy
        (env.VERCEL_TEAM_ID.getD "") slug
        [("VITE_SUPABASE_URL", (so.map (fun s => s.projectUrl)).getD ""),
         ("VITE_SUPABASE_ANON_KEY", (so.map (fun s => s.anonKey)).getD "")]).1.success
        = true
    <;> simp [hc, hs, secretPost_not_mem_createVercelDeployment]
  · simp [hc]

/-- When the Supabase create-project stage fails, the stage records no
project info and its call log contains no secret-write call. -/
theorem supabaseStage_no_secrets_of_fail (env : Env) (w : World)
    (o n slug : String)
    (hfail : (createSupabaseProject w.supaCreate w.supaKeys
        (env.SUPABASE_ORG_ID.getD "") slug).1.success = false) :
    (supabaseStage env w o n slug).1 = none
    ∧ ∀ p nm v, Call.secretPost p nm v ∉ (supabaseStage env w o n slug).2 := by
  unfold supabaseStage
  by_cases hc : (truthy env.SUPABASE_ACCESS_TOKEN && truthy env.SUPABASE_ORG_ID) = true
  · refine ⟨?_, ?_⟩
    · simp [hc, hfail]
    · intro p nm v
      simp [hc, hfail, secretPost_not_mem_createSupabaseProject]
  · refine ⟨?_, ?_⟩
    · simp [hc]
    · intro p nm v
      simp [hc]

/-- Claim C6: when repository creation succeeds but backend-project
creation was attempted and failed, the response is still HTTP 200 with
`success := true`, its `supabase` field is absent, and no secret-write
call is issued. -/
theorem claimC6_supabase_failure_swallowed (env : Env) (w : World)
    (method : String) (r : ProvisionRequest) (b : GitHubGenBody)
    (hm : method ≠ "OPTIONS")
    (h1 : truthy r.businessName = true) (h2 : truthy r.businessSlug = true)
    (h3 : truthy r.ownerEmail = true)
    (ht1 : truthy env.GITHUB_TOKEN = true)
    (ht2 : truthy env.SUPABASE_ACCESS_TOKEN = true)
    (ht3 : truthy env.VERCEL_TOKEN = true)
    (hg : w.githubGen = .resp true b)
    ( _horg : truthy env.SUPABASE_ORG_ID = true)
    (hfail : (createSupabaseProject w.supaCreate w.supaKeys
        (env.SUPABASE_ORG_ID.getD "") (r.businessSlug.getD "")).1.success = false) :
    (serve env w method (.ok r)).1.status = 200
    ∧ bodySuccess (serve env w method (.ok r)).1.body = some true
    ∧ bodySupabase (serve env w method (.ok r)).1.body = some none
    ∧ ∀ p nm v, Call.secretPost p nm v ∉ (serve env w method (.ok r)).2 := by
  obtain ⟨hnone, hnosec⟩ := supabaseStage_no_secrets_of_fail env w "FastFix-SF"
    (r.businessSlug.getD "" ++ "-app") (r.businessSlug.getD "") hfail
  rw [serve_success_shape env w method r b hm h1 h2 h3 ht1 ht2 ht3 hg]
  refine ⟨rfl, rfl, ?_, ?_⟩
  · simp [bodySupabase, hnone]
  · intro p nm v hmem
    simp only [List.mem_append] at hmem
    rcases hmem with ((hmem | hmem) | hmem) | hmem
    · simp at hmem
    · cases hbc : r.businessConfig with
      | none => rw [hbc] at hmem; simp at hmem
      | some c =>
        rw [hbc] at hmem
        exact secretPost_not_mem_updateBusinessConfig w.configGet w.configPut
          "FastFix-SF" (r.businessSlug.getD "" ++ "-app") (some c) p nm v hmem
    · exact hnosec p nm v hmem
    · exact secretPost_not_mem_vercelStage env w (r.businessSlug.getD "") _ p nm v hmem

/-- Claim C6 witness: with the Supabase create call answering a failure
response and everything else succeeding, the response is a successful
200 with no `supabase` field and no secret write (shown for the first
secret of the map the code would have written). -/
theorem claimC6_witness :
    (serve envDemo wSupaFail "POST" (.ok reqDemo)).1.status = 200
    ∧ bodySuccess (serve envDemo wSupaFail "POST" (.ok reqDemo)).1.body = some true
    ∧ bodySupabase (serve envDemo wSupaFail "POST" (.ok reqDemo)).1.body = some none
    ∧ Call.secretPost "proj0" "GITHUB_TOKEN" "ghp-token"
        ∉ (serve envDemo wSupaFail "POST" (.ok reqDemo)).2 := by
  have h := claimC6_supabase_failure_swallowed envDemo wSupaFail "POST" reqDemo
    ghOkBody (by decide) (by decide) (by decide) (by decide) (by decide)
    (by decide) (by decide) rfl (by decide) rfl
  exact ⟨h.1, h.2.1, h.2.2.1, h.2.2.2 "proj0" "GITHUB_TOKEN" "ghp-token"⟩
